import Mathlib

/-!
Shallow embedding of `src/core/gather/gatherers/stacks.js` (the Lighthouse
"Stacks" gatherer): a library detector that races each catalog probe against a
1000ms timer, a server detector that matches document response headers against
a fixed signature table, document-header extraction from a devtools log, and
the orchestrator with its catch-all public boundary.

JS values are modelled as follows: a probe result `false | {version}` becomes
`Option JSVersion`; `string | number | null` version values become `JSVersion`;
JS numbers are modelled as `Int` (the catalog versions in scope are integral);
header objects become ordered association lists with `Object.fromEntries`
last-write-wins lookup; promise rejection / thrown exceptions become explicit
`Except` errors or outcome constructors.
-/

namespace Stacks

/-- A JS library version value: `string | number | null`. -/
inductive JSVersion where
  | vstr (s : String)
  | vnum (n : Int)
  | vnull
deriving DecidableEq, Repr

/-- The observable behaviour of one probe invocation `lib.test(window)` in a
given run, relative to the 1000ms race timer:
* `resolves r beforeTimer`: the probe settles successfully with `false`
  (`r = none`) or `{version: v}` (`r = some v`); `beforeTimer` records whether
  it settles strictly before the timer fires;
* `throws beforeTimer`: the probe throws synchronously or its promise rejects,
  before or after the timer fires;
* `hangs`: the probe never settles. -/
inductive ProbeBehavior where
  | resolves (r : Option JSVersion) (beforeTimer : Bool)
  | throws (beforeTimer : Bool)
  | hangs
deriving DecidableEq, Repr

/-- One entry of the injected signature-test catalog
(`JSLibraryDetectorTest` in the source): `id`, `icon`, `url`, optional `npm`
name, and the probe, embedded by its behaviour in this run. -/
structure JSLibraryDetectorTest where
  id : String
  icon : String
  url : String
  npm : Option String
  test : ProbeBehavior
deriving DecidableEq, Repr

/-- `JSLibrary` from the source: what `detectLibraries` pushes per match. -/
structure JSLibrary where
  id : String
  name : String
  version : JSVersion
  npm : Option String
deriving DecidableEq, Repr

/-- Value of `await Promise.race([lib.test(window), timeoutPromise])` in
`detectLibraries`: `none` means the awaited expression threw (and control
jumps to the `catch (e) {}` arm); `some r` is the settled race value, where
the timer side always settles to `false` (`some none`) at 1000ms. -/
def raceOutcome : ProbeBehavior → Option (Option JSVersion)
  | .resolves r true => some r
  | .resolves _ false => some none
  | .throws true => none
  | .throws false => some none
  | .hangs => some none

/-- Whether `clearTimeout(timeout)` is reached for one catalog entry. The
source runs `if (timeout) clearTimeout(timeout);` on the line after the
`await`; a probe that throws (or rejects) before the timer fires makes the
`await` throw, so control jumps to `catch (e) {}` and that line is skipped. -/
def timerCleared : ProbeBehavior → Bool
  | .throws true => false
  | _ => true

/-- The body of one iteration of the `detectLibraries` loop: `some lib`
exactly when the race produced a truthy result and the entry is pushed. -/
def entryResult (entry : String × JSLibraryDetectorTest) : Option JSLibrary :=
  match raceOutcome entry.2.test with
  | some (some v) =>
      some { id := entry.2.id, name := entry.1, version := v, npm := entry.2.npm }
  | _ => none

/-- `detectLibraries`: iterate the catalog in order, race each probe against
the timer, catch per-entry exceptions, and push a `JSLibrary` per truthy
result. -/
def detectLibraries : List (String × JSLibraryDetectorTest) → List JSLibrary
  | [] => []
  | entry :: rest =>
      match entryResult entry with
      | some lib => lib :: detectLibraries rest
      | none => detectLibraries rest

/-- JS `String.prototype.toLowerCase` on the ASCII header data in scope,
character by character (kernel-reducible, unlike `String.toLower`). -/
def jsToLower (s : String) : String := String.mk (s.data.map Char.toLower)

/-- JS `String.prototype.startsWith`: exact prefix test. -/
def jsStartsWith (s pre : String) : Bool := pre.data.isPrefixOf s.data

/-- One output record (`LH.Artifacts.DetectedStack`): `{detector, id, name,
version?, npm?}` with `undefined` fields modelled as `none`. -/
structure StackEntry where
  detector : String
  id : String
  name : String
  version : Option String := none
  npm : Option String := none
deriving DecidableEq, Repr

/-- `Object.fromEntries` lookup on an entry list: the LAST pair whose key
equals `key` wins (later entries overwrite earlier ones). -/
def headerLookup : List (String × String) → String → Option String
  | [], _ => none
  | (k, v) :: rest, key =>
      match headerLookup rest key with
      | some r => some r
      | none => if k = key then some v else none

/-- The normalization step of `detectServer`: lowercase every header name and
value (`Object.entries(headers).map(([key, value]) => [lower, lower])`). -/
def normalizeHeaders (headers : List (String × String)) : List (String × String) :=
  headers.map (fun p => (jsToLower p.1, jsToLower p.2))

/-- One signature of the `SERVERS` table: id, display name, and header
matchers (header name, required value-substring). -/
structure ServerSig where
  id : String
  name : String
  headers : List (String × String)
deriving DecidableEq, Repr

/-- The fixed `SERVERS` table of `detectServer`, in source order. -/
def SERVERS : List ServerSig :=
  [ { id := "akamai", name := "Akamai", headers := [("x-akamai-transformed", "")] },
    { id := "apache", name := "Apache", headers := [("server", "apache")] },
    { id := "cloudflare", name := "Cloudflare", headers := [("server", "cloudflare")] },
    { id := "litespeed", name := "LiteSpeed", headers := [("server", "litespeed")] },
    { id := "microsoft-iis", name := "Microsoft IIS", headers := [("server", "microsoft-iis")] },
    { id := "nginx", name := "Nginx", headers := [("server", "nginx")] },
    { id := "openresty", name := "OpenResty", headers := [("server", "openresty")] },
    { id := "squarespace", name := "Squarespace", headers := [("server", "squarespace")] },
    { id := "vercel", name := "Vercel", headers := [("server", "vercel")] },
    { id := "wix", name := "WIX", headers := [("x-wix-request-id", "")] } ]

/-- One matcher check of `detectServer`:
`documentHeaders[header] && documentHeaders[header].startsWith(value)`.
An absent header is `undefined` (falsy); a present header with empty value is
`""`, which is ALSO falsy in JS, so the `startsWith` call is never reached. -/
def headerMatches (documentHeaders : List (String × String)) (header value : String) : Bool :=
  match headerLookup documentHeaders header with
  | none => false
  | some v => v != "" && jsStartsWith v value

/-- `Object.entries(server.headers).some(...)` for one signature. -/
def signatureMatches (documentHeaders : List (String × String)) (server : ServerSig) : Bool :=
  server.headers.any (fun p => headerMatches documentHeaders p.1 p.2)

/-- The `for (const server of SERVERS)` loop of `detectServer`: return the
first matching signature as a `server` stack entry. -/
def serverLoop (documentHeaders : List (String × String)) : List ServerSig → Option StackEntry
  | [] => none
  | server :: rest =>
      if signatureMatches documentHeaders server then
        some { detector := "server", id := server.id, name := server.name }
      else
        serverLoop documentHeaders rest

/-- `detectServer(headers)`: normalize the headers, then scan the table. The
JS function falls off the end (returns `undefined`) when nothing matches,
modelled as `none`. -/
def detectServer (headers : List (String × String)) : Option StackEntry :=
  serverLoop (normalizeHeaders headers) SERVERS

/-- One devtools-log entry as read by `getDocumentHeaders`: the `method`
discriminator, `params.type`, and `params.response.headers`. -/
structure LogEntry where
  method : String
  rtype : String
  headers : List (String × String)
deriving DecidableEq, Repr

/-- `Stacks.getDocumentHeaders`: headers of the first
`Network.responseReceived` entry whose `params.type` is `Document`; `{}` if
none exists. -/
def getDocumentHeaders : List LogEntry → List (String × String)
  | [] => []
  | entry :: rest =>
      if entry.method != "Network.responseReceived" then getDocumentHeaders rest
      else if entry.rtype != "Document" then getDocumentHeaders rest
      else entry.headers

/-- The per-library normalization of `Stacks.collectStacks`:
`version: typeof lib.version === 'number' ? String(lib.version) : (lib.version || undefined)`
and `npm: lib.npm || undefined` (the empty string is falsy). -/
def stackFromLib (lib : JSLibrary) : StackEntry :=
  { detector := "js",
    id := lib.id,
    name := lib.name,
    version :=
      match lib.version with
      | .vnum n => some (toString n)
      | .vstr s => if s = "" then none else some s
      | .vnull => none,
    npm :=
      match lib.npm with
      | some s => if s = "" then none else some s
      | none => none }

/-- `Stacks.collectStacks`: await the remote `evaluate(detectLibraries, ...)`
call (whose settled outcome — a library list or a rejection — is the
`evalResult` argument), map the libraries to `js` stack entries, then append
the `detectServer` result when there is one. A rejection propagates. -/
def collectStacks (evalResult : Except String (List JSLibrary))
    (devtoolsLog : List LogEntry) : Except String (List StackEntry) :=
  match evalResult with
  | .error e => .error e
  | .ok jsLibraries =>
      let entries := jsLibraries.map stackFromLib
      match detectServer (getDocumentHeaders devtoolsLog) with
      | some detectedServer => .ok (entries ++ [detectedServer])
      | none => .ok entries

/-- `Stacks.getArtifact`: `try { return await collectStacks(...) } catch { return [] }`. -/
def getArtifact (evalResult : Except String (List JSLibrary))
    (devtoolsLog : List LogEntry) : List StackEntry :=
  match collectStacks evalResult devtoolsLog with
  | .ok entries => entries
  | .error _ => []

/-- A whole successful run: the remote context evaluates `detectLibraries`
over the injected catalog and the orchestrator consumes the result. -/
def runStacks (catalog : List (String × JSLibraryDetectorTest))
    (devtoolsLog : List LogEntry) : List StackEntry :=
  getArtifact (.ok (detectLibraries catalog)) devtoolsLog

/-- Case-insensitive header lookup by name on the ORIGINAL (un-normalized)
header mapping, last-write-wins; used to state the claims about `detectServer`
in the spec's vocabulary ("header name compared case-insensitively"). -/
def lookupCI : List (String × String) → String → Option String
  | [], _ => none
  | (k, v) :: rest, key =>
      match lookupCI rest key with
      | some r => some r
      | none => if jsToLower k = key then some v else none

/-- JS truthiness of a `string | number | null` version value: `null`, the
empty string and `0` are falsy, everything else is truthy. -/
def versionTruthy : JSVersion → Bool
  | .vnull => false
  | .vstr s => s != ""
  | .vnum n => n != 0

/-! Concrete catalog entries and libraries used to instantiate the theorems
on explicit inputs. -/

/-- A probe that settles quickly with a string version. -/
def jqueryTest : JSLibraryDetectorTest :=
  { id := "jquery", icon := "icon-jquery", url := "https://jquery.com",
    npm := some "jquery", test := .resolves (some (.vstr "3.6.0")) true }

/-- A probe that throws (or rejects) before the 1000ms timer fires. -/
def badTest : JSLibraryDetectorTest :=
  { id := "bad", icon := "icon-bad", url := "https://bad.example",
    npm := none, test := .throws true }

/-- A probe that settles quickly with a numeric version. -/
def reactTest : JSLibraryDetectorTest :=
  { id := "react", icon := "icon-react", url := "https://react.dev",
    npm := some "react", test := .resolves (some (.vnum 18)) true }

/-- A catalog entry with an empty `id` whose probe matches. -/
def emptyIdTest : JSLibraryDetectorTest :=
  { id := "", icon := "", url := "", npm := none,
    test := .resolves (some .vnull) true }

/-- The `JSLibrary` produced for the `reactTest` catalog entry. -/
def reactLib : JSLibrary :=
  { id := "react", name := "React", version := .vnum 18, npm := some "react" }

/-- A detected library whose probe reported the numeric version `0`. -/
def zeroVersionLib : JSLibrary :=
  { id := "lib0", name := "Lib0", version := .vnum 0, npm := none }

/-- A detected library whose probe reported the version `""`. -/
def emptyVersionLib : JSLibrary :=
  { id := "libe", name := "LibE", version := .vstr "", npm := none }

/-! Helper lemmas shared by the claim theorems. -/

/-- The `detectLibraries` loop is an order-preserving filter-map of the
catalog by the per-entry race result. -/
theorem detectLibraries_eq_filterMap (catalog : List (String × JSLibraryDetectorTest)) :
    detectLibraries catalog = catalog.filterMap entryResult := by
  induction catalog with
  | nil => rfl
  | cons entry rest ih =>
      cases h : entryResult entry <;>
        simp [detectLibraries, List.filterMap_cons, h, ih]

/-- The `detectServer` table scan returns the first matching signature. -/
theorem serverLoop_eq_find (doc : List (String × String)) (sigs : List ServerSig) :
    serverLoop doc sigs =
      (sigs.find? (signatureMatches doc)).map
        (fun server => { detector := "server", id := server.id, name := server.name }) := by
  induction sigs with
  | nil => rfl
  | cons server rest ih =>
      by_cases h : signatureMatches doc server = true <;>
        simp [serverLoop, List.find?_cons, h, ih]

/-- Any entry returned by the table scan comes from a matching signature of
the table, shaped as a `server` stack entry. -/
theorem serverLoop_mem (doc : List (String × String)) (sigs : List ServerSig)
    (e : StackEntry) (h : serverLoop doc sigs = some e) :
    ∃ sig ∈ sigs, signatureMatches doc sig = true ∧
      e = { detector := "server", id := sig.id, name := sig.name } := by
  induction sigs with
  | nil => cases h
  | cons server rest ih =>
      unfold serverLoop at h
      split at h
      · cases h
        exact ⟨server, by simp, by assumption, rfl⟩
      · obtain ⟨sig, hmem, hm, he⟩ := ih h
        exact ⟨sig, by simp [hmem], hm, he⟩

/-- Normalized-header lookup agrees with case-insensitive lookup on the raw
headers followed by lowercasing the found value. -/
theorem headerLookup_normalize (headers : List (String × String)) (key : String) :
    headerLookup (normalizeHeaders headers) key = (lookupCI headers key).map jsToLower := by
  induction headers with
  | nil => rfl
  | cons p rest ih =>
      simp only [normalizeHeaders, List.map_cons] at *
      simp only [headerLookup, lookupCI, ih]
      cases h : lookupCI rest key with
      | some r => simp
      | none =>
          by_cases hk : jsToLower p.1 = key <;> simp [hk]

/-- Lowercasing yields the empty string only on the empty string. -/
theorem jsToLower_eq_empty_iff (s : String) : jsToLower s = "" ↔ s = "" := by
  constructor
  · intro h
    have hd : s.data.map Char.toLower = ("" : String).data := congrArg String.data h
    have hnil : s.data = [] := List.map_eq_nil_iff.mp hd
    cases s with
    | mk data =>
        simp only [String.data] at hnil
        rw [hnil]
  · intro h
    rw [h]
    rfl

/-- The field content of a pushed library: its `id` and `npm` come from the
catalog entry, its `name` is the catalog key, and its `version` is what the
race produced. -/
theorem entryResult_fields (entry : String × JSLibraryDetectorTest) (lib : JSLibrary)
    (h : entryResult entry = some lib) :
    lib.id = entry.2.id ∧ lib.name = entry.1 ∧ lib.npm = entry.2.npm ∧
      ∃ v, raceOutcome entry.2.test = some (some v) ∧ lib.version = v := by
  unfold entryResult at h
  split at h
  next v heq =>
      cases h
      exact ⟨rfl, rfl, rfl, v, heq, rfl⟩
  next => cases h

/-- A successful run decomposes into the library entries (catalog order)
followed by the optional server entry. -/
theorem runStacks_split (catalog : List (String × JSLibraryDetectorTest))
    (devtoolsLog : List LogEntry) :
    runStacks catalog devtoolsLog =
      (catalog.filterMap entryResult).map stackFromLib ++
        (detectServer (getDocumentHeaders devtoolsLog)).toList := by
  cases h : detectServer (getDocumentHeaders devtoolsLog) <;>
    simp [runStacks, getArtifact, collectStacks, detectLibraries_eq_filterMap, h]

/-! Claim theorems. -/

/-- Claim C1: for every outcome of the remote evaluate call and every network
log, the public entry point `getArtifact` never propagates a failure: it
either returns exactly what `collectStacks` produced, or — whenever
`collectStacks` failed, in particular whenever the remote evaluate call
rejected — it returns the empty sequence. -/
theorem getArtifact_never_throws (evalResult : Except String (List JSLibrary))
    (devtoolsLog : List LogEntry) :
    ((∃ m, collectStacks evalResult devtoolsLog = Except.error m) →
      getArtifact evalResult devtoolsLog = []) ∧
    (∀ m, evalResult = Except.error m → getArtifact evalResult devtoolsLog = []) ∧
    (collectStacks evalResult devtoolsLog =
        Except.ok (getArtifact evalResult devtoolsLog) ∨
      getArtifact evalResult devtoolsLog = []) := by
  refine ⟨?_, ?_, ?_⟩
  · rintro ⟨m, hm⟩
    simp [getArtifact, hm]
  · rintro m rfl
    simp [getArtifact, collectStacks]
  · cases h : collectStacks evalResult devtoolsLog <;> simp [getArtifact, h]

/-- Witness for C1: a rejected evaluate call yields the empty artifact. -/
theorem getArtifact_never_throws_witness :
    getArtifact (Except.error "Runtime.evaluate rejected") [] = [] :=
  (getArtifact_never_throws (Except.error "Runtime.evaluate rejected") []).2.1
    "Runtime.evaluate rejected" rfl

/-- Claim C2: a probe that throws (synchronously or asynchronously) is
treated as no match for that single catalog entry: its entry is absent from
the result and the loop still probes every entry before and after it. -/
theorem throwing_probe_skipped (pre post : List (String × JSLibraryDetectorTest))
    (name : String) (lib : JSLibraryDetectorTest) (beforeTimer : Bool)
    (h : lib.test = ProbeBehavior.throws beforeTimer) :
    detectLibraries (pre ++ (name, lib) :: post) =
      detectLibraries pre ++ detectLibraries post ∧
    entryResult (name, lib) = none := by
  have hres : entryResult (name, lib) = none := by
    cases beforeTimer <;> simp [entryResult, raceOutcome, h]
  refine ⟨?_, hres⟩
  rw [detectLibraries_eq_filterMap, detectLibraries_eq_filterMap,
    detectLibraries_eq_filterMap, List.filterMap_append, List.filterMap_cons, hres]

/-- Witness for C2: with a fast-throwing probe between two matching probes,
the result is exactly the two surrounding entries. -/
theorem throwing_probe_skipped_witness :
    badTest.test = ProbeBehavior.throws true ∧
    detectLibraries [("jQuery", jqueryTest), ("Bad", badTest), ("React", reactTest)] =
      detectLibraries [("jQuery", jqueryTest)] ++ detectLibraries [("React", reactTest)] ∧
    entryResult ("Bad", badTest) = none :=
  ⟨rfl,
    (throwing_probe_skipped [("jQuery", jqueryTest)] [("React", reactTest)]
      "Bad" badTest true rfl).1,
    (throwing_probe_skipped [("jQuery", jqueryTest)] [("React", reactTest)]
      "Bad" badTest true rfl).2⟩

/-- Counterexample to claim C3 as stated: when the probe throws or rejects
before the timer fires, the awaited race throws, control jumps to the catch
arm, and the `clearTimeout` line is never reached — so the timer is NOT
cancelled on that outcome. -/
theorem timer_not_cleared_on_fast_throw :
    raceOutcome (ProbeBehavior.throws true) = none ∧
    timerCleared (ProbeBehavior.throws true) = false :=
  ⟨rfl, rfl⟩

/-- Claim C3 (amended): the race timer is cancelled exactly on the outcomes
where the race settles without throwing — probe resolves (before or after
the timer), probe rejects after the timer already fired, or the probe hangs
and the timer fires; it is left uncancelled precisely when the probe throws
or rejects before the timer fires. -/
theorem timerCleared_characterization (b : ProbeBehavior) :
    timerCleared b = false ↔ b = ProbeBehavior.throws true := by
  cases b with
  | resolves r f => simp [timerCleared]
  | throws f => cases f <;> simp [timerCleared]
  | hangs => simp [timerCleared]

/-- Witness for C3 (amended): instantiated at a probe that resolves quickly
and at one that rejects after the timer fired. -/
theorem timerCleared_characterization_witness :
    timerCleared (ProbeBehavior.resolves (some (JSVersion.vstr "3.6.0")) true) = true ∧
    timerCleared (ProbeBehavior.throws false) = true := by
  constructor
  · cases hv : timerCleared (ProbeBehavior.resolves (some (JSVersion.vstr "3.6.0")) true) with
    | true => rfl
    | false =>
        exact absurd ((timerCleared_characterization
          (ProbeBehavior.resolves (some (JSVersion.vstr "3.6.0")) true)).mp hv)
          (by simp)
  · cases hv : timerCleared (ProbeBehavior.throws false) with
    | true => rfl
    | false =>
        exact absurd ((timerCleared_characterization (ProbeBehavior.throws false)).mp hv)
          (by simp)

/-- Counterexample to claim C4 as stated: a header that is present with the
empty value is NOT a match even for an empty (presence-only) required
substring, because `documentHeaders[header]` evaluates to `""`, which is
falsy, so the `startsWith` check is short-circuited away. Here the
`x-akamai-transformed` header exists and its value starts with the required
substring, yet the matcher is not satisfied and `detectServer` finds
nothing. -/
theorem empty_header_value_not_presence_match :
    headerLookup (normalizeHeaders [("X-Akamai-Transformed", "")])
      "x-akamai-transformed" = some "" ∧
    jsStartsWith "" "" = true ∧
    headerMatches (normalizeHeaders [("X-Akamai-Transformed", "")])
      "x-akamai-transformed" "" = false ∧
    detectServer [("X-Akamai-Transformed", "")] = none := by
  decide

/-- Claim C4 (amended): a header matcher is satisfied iff the named header
exists in the mapping (name compared case-insensitively, last write wins)
with a NON-EMPTY value and the header's lowercased value starts with the
matcher's required substring; an empty required substring matches whenever
the header is present with a non-empty value. -/
theorem headerMatches_iff (headers : List (String × String)) (header value : String) :
    headerMatches (normalizeHeaders headers) header value = true ↔
      ∃ raw, lookupCI headers header = some raw ∧ raw ≠ "" ∧
        jsStartsWith (jsToLower raw) value = true := by
  unfold headerMatches
  rw [headerLookup_normalize]
  cases h : lookupCI headers header with
  | none => simp
  | some raw =>
      change (jsToLower raw != "" && jsStartsWith (jsToLower raw) value) = true ↔ _
      simp only [Bool.and_eq_true, bne_iff_ne, ne_eq]
      rw [jsToLower_eq_empty_iff]
      constructor
      · rintro ⟨hne, hpre⟩
        exact ⟨raw, rfl, hne, hpre⟩
      · rintro ⟨raw2, hr, hne, hpre⟩
        cases hr
        exact ⟨hne, hpre⟩

/-- Witness for C4 (amended): a case-insensitively named `Server` header
with value `NGINX/1.2` satisfies the `nginx` matcher. -/
theorem headerMatches_iff_witness :
    headerMatches (normalizeHeaders [("Server", "NGINX/1.2")]) "server" "nginx" = true :=
  (headerMatches_iff [("Server", "NGINX/1.2")] "server" "nginx").mpr
    ⟨"NGINX/1.2", by decide, by decide, by decide⟩

/-- Claim C5: the server detector scans the fixed `SERVERS` table in order;
a signature matches when any of its header matchers is satisfied on the
normalized headers, the first matching signature is returned as a `server`
stack entry, and `none` is returned when no signature matches. -/
theorem detectServer_first_match (headers : List (String × String)) :
    detectServer headers =
      (SERVERS.find? (signatureMatches (normalizeHeaders headers))).map
        (fun server => { detector := "server", id := server.id, name := server.name }) :=
  serverLoop_eq_find (normalizeHeaders headers) SERVERS

/-- Claim C6: document-header extraction returns the headers of the first
log entry (in log order) that is a `Network.responseReceived` event of
resource type `Document`, and the empty mapping when no such entry exists. -/
theorem getDocumentHeaders_first_document (devtoolsLog : List LogEntry) :
    getDocumentHeaders devtoolsLog =
      ((devtoolsLog.find? (fun e =>
          e.method == "Network.responseReceived" && e.rtype == "Document")).map
        LogEntry.headers).getD [] := by
  induction devtoolsLog with
  | nil => rfl
  | cons e rest ih =>
      cases hm : e.method == "Network.responseReceived" <;>
        cases ht : e.rtype == "Document" <;>
          simp [getDocumentHeaders, List.find?_cons, hm, ht, ih, bne]

/-- Claim C7: the final artifact is the detected-library entries first, in
catalog iteration order (an order-preserving filter of the catalog), each
with detector `js`, followed by at most one `server` entry appended exactly
when the server detector returned a result. -/
theorem artifact_order (catalog : List (String × JSLibraryDetectorTest))
    (devtoolsLog : List LogEntry) :
    runStacks catalog devtoolsLog =
      (catalog.filterMap entryResult).map stackFromLib ++
        (detectServer (getDocumentHeaders devtoolsLog)).toList ∧
    ((catalog.filterMap entryResult).map stackFromLib).all
      (fun e => e.detector == "js") = true ∧
    ((detectServer (getDocumentHeaders devtoolsLog)).toList).all
      (fun e => e.detector == "server") = true := by
  refine ⟨runStacks_split catalog devtoolsLog, ?_, ?_⟩
  · rw [List.all_eq_true]
    intro e he
    rw [List.mem_map] at he
    obtain ⟨lib, -, rfl⟩ := he
    simp [stackFromLib]
  · cases hd : detectServer (getDocumentHeaders devtoolsLog) with
    | none => rfl
    | some e =>
        unfold detectServer at hd
        obtain ⟨sig, -, -, rfl⟩ := serverLoop_mem _ _ _ hd
        simp

/-- Claim C8: a library entry emitted for a matching probe carries the
catalog entry's `id` and npm name, its `name` is the catalog key and its
version is the race's result; numeric versions are stringified in the
output, a null version yields an absent version field, and a falsy npm name
(null or empty) yields an absent npm field. -/
theorem detected_library_fields (name : String) (lib : JSLibraryDetectorTest)
    (j : JSLibrary) (h : entryResult (name, lib) = some j) :
    j.id = lib.id ∧ j.name = name ∧ j.npm = lib.npm ∧
    (∃ v, raceOutcome lib.test = some (some v) ∧ j.version = v) ∧
    (∀ n : Int, j.version = JSVersion.vnum n →
      (stackFromLib j).version = some (toString n)) ∧
    (j.version = JSVersion.vnull → (stackFromLib j).version = none) ∧
    (lib.npm = none → (stackFromLib j).npm = none) ∧
    (lib.npm = some "" → (stackFromLib j).npm = none) := by
  obtain ⟨hid, hname, hnpm, v, hv, hver⟩ := entryResult_fields (name, lib) j h
  refine ⟨hid, hname, hnpm, ⟨v, hv, hver⟩, ?_, ?_, ?_, ?_⟩
  · intro n hn
    simp [stackFromLib, hn]
  · intro hn
    simp [stackFromLib, hn]
  · intro hn
    rw [hn] at hnpm
    simp [stackFromLib, hnpm]
  · intro hn
    rw [hn] at hnpm
    simp [stackFromLib, hnpm]

/-- Witness for C8: the `React` catalog entry with numeric version 18 yields
a library whose fields come from the catalog entry and whose stack entry has
version string `18`. -/
theorem detected_library_fields_witness :
    reactLib.id = reactTest.id ∧ reactLib.name = "React" ∧
    reactLib.npm = reactTest.npm ∧
    (stackFromLib reactLib).version = some (toString (18 : Int)) :=
  ⟨(detected_library_fields "React" reactTest reactLib rfl).1,
    (detected_library_fields "React" reactTest reactLib rfl).2.1,
    (detected_library_fields "React" reactTest reactLib rfl).2.2.1,
    (detected_library_fields "React" reactTest reactLib rfl).2.2.2.2.1 18 rfl⟩

/-- Counterexample to claim C9 as stated: the code never validates catalog
ids, so a catalog entry whose `id` is the empty string and whose probe
matches produces an artifact entry with an empty `id`. -/
theorem artifact_empty_id_cex :
    runStacks [("EmptyIdLib", emptyIdTest)] [] =
      [{ detector := "js", id := "", name := "EmptyIdLib" }] ∧
    (runStacks [("EmptyIdLib", emptyIdTest)] []).all (fun e => e.id != "") = false := by
  decide

/-- Claim C9 (amended): whenever every catalog entry has a non-empty id,
every entry of the returned artifact has a non-empty id (server-table ids
are non-empty literals); and unconditionally the server detector contributes
at most one entry per run. -/
theorem artifact_invariants (catalog : List (String × JSLibraryDetectorTest))
    (devtoolsLog : List LogEntry) :
    ((catalog.all (fun entry => entry.2.id != "")) = true →
      (runStacks catalog devtoolsLog).all (fun e => e.id != "") = true) ∧
    (runStacks catalog devtoolsLog).countP (fun e => e.detector == "server") ≤ 1 := by
  constructor
  · intro hcat
    rw [runStacks_split, List.all_append]
    rw [List.all_eq_true] at hcat
    rw [Bool.and_eq_true]
    refine ⟨?_, ?_⟩
    · rw [List.all_eq_true]
      intro e he
      rw [List.mem_map] at he
      obtain ⟨lib, hmem, rfl⟩ := he
      rw [List.mem_filterMap] at hmem
      obtain ⟨entry, hent, hres⟩ := hmem
      obtain ⟨hid, -, -, -⟩ := entryResult_fields entry lib hres
      have : (stackFromLib lib).id = entry.2.id := by rw [← hid]; rfl
      rw [this]
      exact hcat entry hent
    · cases hd : detectServer (getDocumentHeaders devtoolsLog) with
      | none => rfl
      | some e =>
          unfold detectServer at hd
          obtain ⟨sig, hmem, -, rfl⟩ := serverLoop_mem _ _ _ hd
          have hall : SERVERS.all (fun s => s.id != "") = true := by decide
          rw [List.all_eq_true] at hall
          simpa using hall sig hmem
  · rw [runStacks_split, List.countP_append]
    have h1 : ((catalog.filterMap entryResult).map stackFromLib).countP
        (fun e => e.detector == "server") = 0 := by
      rw [List.countP_eq_zero]
      intro e he
      rw [List.mem_map] at he
      obtain ⟨lib, -, rfl⟩ := he
      simp [stackFromLib]
    have h2 : ((detectServer (getDocumentHeaders devtoolsLog)).toList).countP
        (fun e => e.detector == "server") ≤ 1 := by
      cases detectServer (getDocumentHeaders devtoolsLog) with
      | none => simp
      | some e =>
          calc ((some e).toList).countP (fun x => x.detector == "server")
              ≤ ((some e).toList).length := List.countP_le_length _
            _ = 1 := rfl
    omega

/-- Witness for C9 (amended): a one-entry catalog with non-empty id gives an
artifact whose entries all have non-empty ids, with at most one server
entry. -/
theorem artifact_invariants_witness :
    (runStacks [("jQuery", jqueryTest)] []).all (fun e => e.id != "") = true ∧
    (runStacks [("jQuery", jqueryTest)] []).countP
      (fun e => e.detector == "server") ≤ 1 :=
  ⟨(artifact_invariants [("jQuery", jqueryTest)] []).1 (by decide),
    (artifact_invariants [("jQuery", jqueryTest)] []).2⟩

/-- Counterexample to claim C10 as stated: not ALL falsy version values are
coalesced to an absent field — the numeric version `0` is falsy in JS, yet
the `typeof lib.version === 'number'` check precedes the falsy coalescing,
so it is stringified to `"0"` and the version field is present. -/
theorem zero_version_not_coalesced :
    versionTruthy (JSVersion.vnum 0) = false ∧
    zeroVersionLib.version = JSVersion.vnum 0 ∧
    (stackFromLib zeroVersionLib).version = some "0" := by
  decide

/-- Claim C10 (amended): the non-numeric falsy version values — the empty
string and null — are both coalesced to an absent version field, while every
numeric version (including the falsy `0`) is stringified first because the
number check precedes the falsy coalescing. -/
theorem falsy_nonnumeric_version_absent (lib : JSLibrary) :
    (lib.version = JSVersion.vstr "" → (stackFromLib lib).version = none) ∧
    (lib.version = JSVersion.vnull → (stackFromLib lib).version = none) ∧
    (∀ n : Int, lib.version = JSVersion.vnum n →
      (stackFromLib lib).version = some (toString n)) := by
  refine ⟨?_, ?_, ?_⟩
  · intro h
    simp [stackFromLib, h]
  · intro h
    simp [stackFromLib, h]
  · intro n h
    simp [stackFromLib, h]

/-- Witness for C10 (amended): a library whose probe reported version `""`
gets an absent version field, like one that reported null. -/
theorem falsy_nonnumeric_version_absent_witness :
    (stackFromLib emptyVersionLib).version = none :=
  (falsy_nonnumeric_version_absent emptyVersionLib).1 rfl

end Stacks
